import Mathlib

/-!
Verification development for the ytdorn repository (0xb0rn3/ytdorn).

The repository contains three Python files:
  * `ytdorn.py`    — "YtDorn v0.1.2" CLI: `AdvancedProgressBar`, `SuperDownloader`,
                     `BatchDownloader`, `ConfigManager`, `create_advanced_options_menu`,
                     `run_cli_mode`.
  * `ytdorn3.py`   — "YtDorn3" CLI: `ProgressBar`, `Downloader` with
                     `download_hook` and `_get_format_options`.
  * `ytdorn3gui.py`— tkinter GUI: `YtDornGUI` with `download_progress_hook`,
                     `cancel_download`, `download_thread`, `get_format_options`.

Each definition below is a shallow embedding of one of those source functions;
ambient time (`time.time()`) is passed as an explicit rational argument, Python
dicts become association lists, and Python exceptions become `Except`.
-/

namespace YtDorn

/-! ## Generic helpers: Python dict / basename -/

/-- Values stored in the loosely typed option dictionaries of the source
(strings, booleans, lists of strings, and Python `None`). -/
inductive Value where
  | s (v : String)
  | b (v : Bool)
  | sl (v : List String)
  | none
deriving DecidableEq, Repr

/-- A Python dict with string keys, as an association list in insertion order. -/
abbrev PyDict := List (String × Value)

/-- Python `d[k] = v`: replace the first binding of `k`, else append. -/
def dictSet : PyDict → String → Value → PyDict
  | [], k, v => [(k, v)]
  | (k', v') :: rest, k, v =>
      if k' = k then (k, v) :: rest else (k', v') :: dictSet rest k v

/-- Python `d.get(k)` / `d[k]` lookup. -/
def dictGet (d : PyDict) (k : String) : Option Value :=
  (List.find? (fun kv => kv.1 = k) d).map (·.2)

/-- Python `d.update(e)` restricted to entries of `e` whose key is in `keys`,
mirroring `merged_opts.update({k: v for k, v in cli_options.items() if k in keys})`. -/
def dictUpdateKeys (d : PyDict) (e : PyDict) (keys : List String) : PyDict :=
  (List.filter (fun kv => keys.contains kv.1) e).foldl
    (fun acc kv => dictSet acc kv.1 kv.2) d

/-- Split a character list at `/`, accumulating the current component in
reverse (structural-recursion core of `splitSlash`). -/
def splitSlashAux : List Char → List Char → List String
  | [], acc => [String.mk acc.reverse]
  | c :: cs, acc =>
      if c = '/' then String.mk acc.reverse :: splitSlashAux cs []
      else splitSlashAux cs (c :: acc)

/-- Split a string at every `/` (as Python `s.split('/')` does). -/
def splitSlash (q : String) : List String :=
  splitSlashAux q.data []

/-- `os.path.basename` for POSIX-style paths: the part after the last slash. -/
def basename (p : String) : String :=
  (splitSlash p).getLastD ""

/-! ## `ytdorn3.py` — `Downloader._get_format_options` (lines 491–528)

The source holds a literal dict `formats` mapping choices `'1'..'5'` to option
dicts and returns `formats.get(choice, formats['1'])`. -/

/-- One yt-dlp post-processing step descriptor (`key`, `preferredcodec`,
`preferredquality`), as in the source's `postprocessors` entries. -/
structure PPStep where
  key : String
  preferredcodec : String
  preferredquality : String
deriving DecidableEq, Repr

/-- The option dict returned by `Downloader._get_format_options`. -/
structure FmtOpts where
  format : String
  format_note : Option String
  postprocessors : List PPStep
deriving DecidableEq, Repr

/-- `formats['1']` of `ytdorn3.py`. -/
def ytdorn3Fmt1 : FmtOpts :=
  { format := "bestvideo[ext=mp4]+bestaudio[ext=m4a]/best[ext=mp4]/best"
    format_note := some "Best Quality Video"
    postprocessors := [] }

/-- The literal `formats` dict of `Downloader._get_format_options`. -/
def ytdorn3Formats : List (String × FmtOpts) :=
  [ ("1", ytdorn3Fmt1)
  , ("2", { format := "bestvideo[height<=720][ext=mp4]+bestaudio[ext=m4a]/best[height<=720][ext=mp4]/best"
            format_note := some "720p Video"
            postprocessors := [] })
  , ("3", { format := "bestvideo[height<=480][ext=mp4]+bestaudio[ext=m4a]/best[height<=480][ext=mp4]/best"
            format_note := some "480p Video"
            postprocessors := [] })
  , ("4", { format := "bestaudio[ext=m4a]/bestaudio/best"
            format_note := some "Best Quality Audio"
            postprocessors := [⟨"FFmpegExtractAudio", "m4a", "192"⟩] })
  , ("5", { format := "worstaudio/worst"
            format_note := some "Medium Quality Audio"
            postprocessors := [⟨"FFmpegExtractAudio", "m4a", "128"⟩] }) ]

/-- `Downloader._get_format_options(choice)`:
`formats.get(choice, formats['1'])`. -/
def ytdorn3GetFormatOptions (choice : String) : FmtOpts :=
  (ytdorn3Formats.lookup choice).getD ytdorn3Fmt1

/-! ## `ytdorn3gui.py` — `YtDornGUI.get_format_options` (lines 234–264)

An `if/elif` chain on `'1'..'4'`; every other choice falls into the final
`else`, which returns the medium-quality audio options
(`worstaudio/worst`, extract to m4a at quality 128). -/

/-- The medium-quality-audio dict of the GUI's final `else` branch. -/
def guiMediumAudioOpts : FmtOpts :=
  { format := "worstaudio/worst"
    format_note := Option.none
    postprocessors := [⟨"FFmpegExtractAudio", "m4a", "128"⟩] }

/-- `YtDornGUI.get_format_options(choice)`. The GUI dicts carry no
`format_note` key, hence `format_note := none` throughout. -/
def guiGetFormatOptions (choice : String) : FmtOpts :=
  if choice = "1" then
    { format := "bestvideo[ext=mp4]+bestaudio[ext=m4a]/best[ext=mp4]/best"
      format_note := Option.none, postprocessors := [] }
  else if choice = "2" then
    { format := "bestvideo[height<=720][ext=mp4]+bestaudio[ext=m4a]/best[height<=720][ext=mp4]/best"
      format_note := Option.none, postprocessors := [] }
  else if choice = "3" then
    { format := "bestvideo[height<=480][ext=mp4]+bestaudio[ext=m4a]/best[height<=480][ext=mp4]/best"
      format_note := Option.none, postprocessors := [] }
  else if choice = "4" then
    { format := "bestaudio[ext=m4a]/bestaudio/best"
      format_note := Option.none
      postprocessors := [⟨"FFmpegExtractAudio", "m4a", "192"⟩] }
  else
    guiMediumAudioOpts

/-! ## `ytdorn.py` — format mapping of `create_advanced_options_menu`
(lines 814–834)

Maps the chosen abstract tier key to a concrete yt-dlp format query. The
`custom` argument stands for the string the user types at the `custom` tier. -/

/-- The format-query mapping of `create_advanced_options_menu`. -/
def advancedMenuFormat (key : String) (custom : String) : String :=
  if key = "best" then
    "bestvideo[ext=mp4]+bestaudio[ext=m4a]/best[ext=mp4]/best"
  else if key = "1080p" then
    "bestvideo[height<=1080][ext=mp4]+bestaudio[ext=m4a]/best[height<=1080][ext=mp4]/best[height<=1080]"
  else if key = "720p" then
    "bestvideo[height<=720][ext=mp4]+bestaudio[ext=m4a]/best[height<=720][ext=mp4]/best[height<=720]"
  else if key = "480p" then
    "bestvideo[height<=480][ext=mp4]+bestaudio[ext=m4a]/best[height<=480][ext=mp4]/best[height<=480]"
  else if key = "audio" then
    "bestaudio/best"
  else if key = "mp3" then
    "bestaudio/best"
  else if key = "custom" then
    custom
  else
    "bestvideo[ext=mp4]+bestaudio[ext=m4a]/best[ext=mp4]/best"

/-- The fallback alternatives of a yt-dlp format query, separated by `/`
(yt-dlp tries them left to right). -/
def formatAlternatives (q : String) : List String :=
  splitSlash q

/-- A query that merges a separate video stream and a separate audio stream
(yt-dlp `+` syntax); its negation is a single-container query. -/
def isMuxedQuery (q : String) : Bool :=
  q.data.contains '+'

/-! ## Association-list helpers for `self.progress_bars` / `self.start_times` -/

/-- Python `d[k] = v` on a dict with values of any one type. -/
def assocSet {α : Type} : List (String × α) → String → α → List (String × α)
  | [], k, v => [(k, v)]
  | (k', v') :: rest, k, v =>
      if k' = k then (k, v) :: rest else (k', v') :: assocSet rest k v

/-- Python `del d[k]` (the callers below check membership first). -/
def assocErase {α : Type} (d : List (String × α)) (k : String) : List (String × α) :=
  d.eraseP (fun kv => kv.1 == k)

/-! ## `ytdorn3gui.py` — GUI state, progress hook, cancel, thread

`YtDornGUI`'s mutable state relevant to downloading: the `output_queue`
(messages to the UI thread), the log area, the Download button state, the
progress bar variable and the status label. The class has no cancellation
flag attribute; these five fields are everything `cancel_download`,
`download_progress_hook` and `download_thread` touch. -/

/-- A message placed on `self.output_queue` (`('progress', p)`,
`('status', text)`, `('error', text)`, `('done', None)`). -/
inductive GuiMsg where
  | progress (p : ℚ)
  | statusMsg (text : String)
  | errorMsg (text : String)
  | done
deriving DecidableEq, Repr

/-- The downloading-related mutable state of `YtDornGUI`. -/
structure GuiState where
  output_queue : List GuiMsg
  log_lines : List (String × String)
  download_btn_enabled : Bool
  progress_var : ℚ
  status_text : String
deriving DecidableEq, Repr

/-- GUI state as built by `create_widgets` (empty queue and log, button
enabled, bar at 0, label "Ready"). -/
def guiInit : GuiState :=
  { output_queue := [], log_lines := [], download_btn_enabled := true
    progress_var := 0, status_text := "Ready" }

/-- The yt-dlp progress-callback dict `d`, restricted to the keys the hooks
read; optional keys are `Option` (absent → `none`). -/
structure HookInput where
  status : String
  filename : Option String
  total_bytes : Option ℚ
  downloaded_bytes : Option ℚ
  speed : Option ℚ
deriving DecidableEq, Repr

/-- One-decimal rendering of a nonnegative rational, standing in for Python's
`f"{x:.1f}"` (Python rounds the last digit half-to-even; this truncates —
no claim inspects these digits). -/
def fmt1 (q : ℚ) : String :=
  let n : Int := ⌊q * 10⌋
  toString (n / 10) ++ "." ++ toString (n % 10)

/-- `YtDornGUI.format_size`: divide by 1024 through B/KB/MB/GB, else TB. -/
def formatSizeAux : List String → ℚ → String
  | [], b => fmt1 b ++ "TB"
  | u :: us, b => if b < 1024 then fmt1 b ++ u else formatSizeAux us (b / 1024)

/-- `YtDornGUI.format_size(bytes)`. -/
def formatSize (b : ℚ) : String :=
  formatSizeAux ["B", "KB", "MB", "GB"] b

/-- `YtDornGUI.download_progress_hook(d)` (lines 139–156): on
`'downloading'`, put a percent message on the queue when `total_bytes > 0`
and a speed status message when `speed` is truthy; on `'finished'`, put a
status message and write to the log. It reads no cancellation state. -/
def downloadProgressHook (s : GuiState) (d : HookInput) : GuiState :=
  if d.status = "downloading" then
    let total_bytes := d.total_bytes.getD 0
    let downloaded_bytes := d.downloaded_bytes.getD 0
    let s1 :=
      if total_bytes > 0 then
        { s with output_queue :=
            s.output_queue ++ [GuiMsg.progress (downloaded_bytes / total_bytes * 100)] }
      else s
    let filename := basename (d.filename.getD "")
    let speed := d.speed.getD 0
    if speed ≠ 0 then
      { s1 with output_queue := s1.output_queue ++
          [GuiMsg.statusMsg ("Downloading " ++ filename ++ "... @ " ++ formatSize speed ++ "/s")] }
    else s1
  else if d.status = "finished" then
    { s with
        output_queue := s.output_queue ++ [GuiMsg.statusMsg "Download complete, processing..."]
        log_lines := s.log_lines ++ [("Download complete, processing file...", "success")] }
  else s

/-- `YtDornGUI.cancel_download` (lines 225–229): write a log line, re-enable
the Download button, reset the progress bar and the status label. It sets no
interruption flag (the class has none) and does not touch the worker thread
or the queue. -/
def cancelDownload (s : GuiState) : GuiState :=
  { s with
      log_lines := s.log_lines ++ [("Download cancelled", "warning")]
      download_btn_enabled := true
      progress_var := 0
      status_text := "Ready" }

/-- `YtDornGUI.download_thread` (lines 176–204), with the external engine
abstracted by the trace of progress callbacks it delivers plus its final
outcome (the URL/options plumbing and `os.makedirs` are I/O outside the
model). The thread runs every callback through the hook — it consults no
cancellation state anywhere — then enqueues `done` or `error`. -/
def downloadThread (callbacks : List HookInput) (outcome : Except String Unit)
    (s : GuiState) : GuiState :=
  let s' := callbacks.foldl downloadProgressHook s
  match outcome with
  | .ok _ => { s' with output_queue := s'.output_queue ++ [GuiMsg.done] }
  | .error e => { s' with output_queue := s'.output_queue ++ [GuiMsg.errorMsg e] }

/-! ## `ytdorn3.py` — `Downloader.download_hook` (lines 358–393)

The hook keeps `self.progress_bars : dict` and `self.start_times : dict`.
In the `'downloading'` branch the local `total_bytes` is bound only inside
`if filename not in self.progress_bars:` (line 369), while line 370 reads it
unconditionally to build a fresh `ProgressBar`; Python raises
`UnboundLocalError` when the binding branch was skipped. Exceptions are
modelled by `Except.error`. -/

/-- The fields of `ytdorn3.py`'s `ProgressBar` mutated by the hook
(`total`, `start_time`, `current`); rendering helpers are cosmetic. -/
structure PBar3 where
  total : ℚ
  start_time : ℚ
  current : ℚ
deriving DecidableEq, Repr

/-- The mutable state of `ytdorn3.py`'s `Downloader`. -/
structure DlState where
  progress_bars : List (String × PBar3)
  start_times : List (String × ℚ)
deriving DecidableEq, Repr

/-- `Downloader.__init__`: both dicts empty. -/
def dlInit : DlState := { progress_bars := [], start_times := [] }

/-- `Downloader.download_hook(d)` at ambient time `now`. -/
def ytdorn3DownloadHook (s : DlState) (now : ℚ) (d : HookInput) :
    Except String DlState :=
  if d.status = "downloading" then
    let filename := basename (d.filename.getD "")
    if filename ≠ "" then
      -- lines 367-369: bindings taken only for a filename not seen before
      let isNew := (s.progress_bars.lookup filename).isNone
      let start_times :=
        if isNew then assocSet s.start_times filename now else s.start_times
      let total_bytes : Option ℚ :=
        if isNew then some (d.total_bytes.getD 0) else Option.none
      -- line 370: `ProgressBar(total_bytes, ...)` reads the local unconditionally
      match total_bytes with
      | Option.none => Except.error "UnboundLocalError: total_bytes"
      | some tb =>
        let downloaded_bytes := d.downloaded_bytes.getD 0
        -- fresh bar (start_time := now), then `.update(downloaded_bytes)`
        let bar : PBar3 := { total := tb, start_time := now, current := downloaded_bytes }
        Except.ok { progress_bars := assocSet s.progress_bars filename bar
                    start_times := start_times }
    else Except.ok s
  else if d.status = "finished" then
    let filename := basename (d.filename.getD "")
    if (s.start_times.lookup filename).isSome then
      -- lines 391-392: `del` raises KeyError on a missing key
      match s.progress_bars.lookup filename with
      | Option.none => Except.error "KeyError"
      | some _ =>
          Except.ok { progress_bars := assocErase s.progress_bars filename
                      start_times := assocErase s.start_times filename }
    else Except.ok s
  else Except.ok s

/-! ## `ytdorn.py` — `AdvancedProgressBar` (lines 117–240)

State: `total`, `start_time`, `current`, `speed_samples` (a list of
`(timestamp, bytes)` pairs, oldest first) and `last_update_time`.
`update(current_bytes)` is translated with `time.time()` as the explicit
argument `now`; its numeric outputs (the percentage, the optional speed, the
optional ETA seconds) are returned in `AdvOut` — `speed = none` corresponds
to the empty `current_speed_str`, `eta = none` to the `"--:--"` display. -/

/-- Mutable fields of `AdvancedProgressBar`. -/
structure AdvBar where
  total : ℚ
  start_time : ℚ
  current : ℚ
  speed_samples : List (ℚ × ℚ)
  last_update_time : ℚ
deriving DecidableEq, Repr

/-- `AdvancedProgressBar.__init__(total)` at creation time `now0`
(`start_time` and `last_update_time` are both set to `time.time()`). -/
def advBarInit (total : ℚ) (now0 : ℚ) : AdvBar :=
  { total := total, start_time := now0, current := 0
    speed_samples := [], last_update_time := now0 }

/-- Numeric outputs of one `update` call. -/
structure AdvOut where
  percentage : ℚ
  speed : Option ℚ
  eta : Option ℚ
deriving DecidableEq, Repr

/-- Line 144 of `AdvancedProgressBar.update`: append the new sample only if
its timestamp strictly exceeds the newest sample's
(`if not self.speed_samples or now > self.speed_samples[-1][0]`; the
`getLastD` default is unreachable because the `or` short-circuits on the
empty list). -/
def appendSample (samples : List (ℚ × ℚ)) (now current_bytes : ℚ) : List (ℚ × ℚ) :=
  if samples = [] ∨ now > (samples.getLastD (0, 0)).1 then
    samples ++ [(now, current_bytes)]
  else samples

/-- Line 148: `if len(self.speed_samples) > 10: self.speed_samples.pop(0)`
(`pop(0)` removes the head, the oldest sample). -/
def evictOld (samples : List (ℚ × ℚ)) : List (ℚ × ℚ) :=
  if samples.length > 10 then samples.tail else samples

/-- Lines 152–157: the windowed rate `byte_delta / time_delta` over
oldest (`[0]`) to newest (`[-1]`) when the window has more than one sample
and time advanced; `none` stands for the empty `current_speed_str`. -/
def windowSpeed (samples : List (ℚ × ℚ)) : Option ℚ :=
  if samples.length > 1 then
    match samples.getLast?, samples.head? with
    | some lastP, some headP =>
        if lastP.1 - headP.1 > 0 then
          some ((lastP.2 - headP.2) / (lastP.1 - headP.1))
        else Option.none
    | _, _ => Option.none
  else Option.none

/-- The speed-sampling block of `AdvancedProgressBar.update` (lines
134–164): returns the new `speed_samples` window, the computed speed
(`none` for an empty `current_speed_str`) and the new `last_update_time`. -/
def advSpeedStep (s : AdvBar) (now current_bytes : ℚ) :
    List (ℚ × ℚ) × Option ℚ × ℚ :=
  if now - s.last_update_time > 1/2 ∨ s.speed_samples = [] then
    if s.speed_samples ≠ [] then
      let samples2 := evictOld (appendSample s.speed_samples now current_bytes)
      (samples2, windowSpeed samples2, now)
    else
      -- lines 158-162: first updates use the overall average
      if now > s.start_time then
        (s.speed_samples ++ [(now, current_bytes)],
         some (current_bytes / (now - s.start_time)), now)
      else (s.speed_samples, Option.none, now)
  else (s.speed_samples, Option.none, s.last_update_time)

/-- `AdvancedProgressBar.update(current_bytes)` at ambient time `now`:
the speed-sampling block (lines 134–164), the percentage (line 168) and the
ETA block (lines 192–207), in source order. -/
def advBarUpdate (s : AdvBar) (now current_bytes : ℚ) : AdvBar × AdvOut :=
  -- self.current = current_bytes
  let s := { s with current := current_bytes }
  let step := advSpeedStep s now current_bytes
  let samples := step.1
  let speed := step.2.1
  let lut := step.2.2
  -- line 168: percentage (0 substituted when total is not positive)
  let percentage : ℚ := if (0 : ℚ) < s.total then current_bytes / s.total * 100 else 0
  -- lines 192-207: ETA from the (already updated) sample window, else overall
  let elapsed := now - s.start_time
  let eta : Option ℚ :=
    if current_bytes > 0 ∧ elapsed > 0 ∧ samples.length > 1 then
      match samples.getLast?, samples.head? with
      | some lastP, some headP =>
          let td := lastP.1 - headP.1
          let bd := lastP.2 - headP.2
          if td > 0 ∧ bd > 0 then
            let rate := bd / td
            if rate > 0 then some ((s.total - current_bytes) / rate) else Option.none
          else Option.none
      | _, _ => Option.none
    else if current_bytes > 0 ∧ elapsed > 0 then
      let rate := current_bytes / elapsed
      if rate > 0 then some ((s.total - current_bytes) / rate) else Option.none
    else Option.none
  ({ s with speed_samples := samples, last_update_time := lut },
   { percentage := percentage, speed := speed, eta := eta })

/-- The window invariant of claim C6: strictly increasing timestamps and at
most 10 samples. -/
def WindowInv (l : List (ℚ × ℚ)) : Prop :=
  l.Pairwise (fun a b => a.1 < b.1) ∧ l.length ≤ 10

/-- The windowed throughput `(newest bytes − oldest bytes) /
(newest time − oldest time)` over a sample window. -/
def windowRate (l : List (ℚ × ℚ)) : Option ℚ :=
  match l.getLast?, l.head? with
  | some lastP, some headP => some ((lastP.2 - headP.2) / (lastP.1 - headP.1))
  | _, _ => Option.none

/-! ## `ytdorn.py` — `SuperDownloader.download_with_options` (lines 706–763)
and `BatchDownloader.download_from_file` (lines 1113–1171)

`download_with_options` builds `ydl_opts` deterministically from the options
dict (lines 714–754, pure data plumbing absorbed into the abstract engine
argument), then wraps the external `ydl.download([url])` call in
`try: ... return True / except Exception: ... return False` (lines 756–763).
The engine (yt-dlp) is a black box taking the URL and options and either
succeeding or raising. -/

/-- `SuperDownloader.download_with_options(url, options)` with the external
transfer engine abstracted: the `except Exception` clause converts every
engine exception into the return value `False`. -/
def downloadWithOptions (engine : String → PyDict → Except String Unit)
    (url : String) (options : PyDict) : Bool :=
  match engine url options with
  | Except.ok _ => true
  | Except.error _ => false

/-- The per-URL loop of `BatchDownloader.download_from_file` (lines
1151–1160): each valid URL is handed to `download_with_options` in turn and
yields its own Boolean outcome; the loop body contains no `break`/`return`. -/
def batchOutcomes (engine : String → PyDict → Except String Unit)
    (base_options : PyDict) : List String → List Bool
  | [] => []
  | url :: rest =>
      downloadWithOptions engine url base_options :: batchOutcomes engine base_options rest

/-- `successful_downloads` after the loop, and the function's return value
`successful_downloads == len(valid_urls)` (lines 1162–1163). -/
def downloadFromFileResult (engine : String → PyDict → Except String Unit)
    (base_options : PyDict) (valid_urls : List String) : Bool :=
  (batchOutcomes engine base_options valid_urls).count true = valid_urls.length

/-! ## `ytdorn.py` — `ConfigManager.add_recent_output_dir` (lines 1249–1269)

`Path(output_path).resolve()` is filesystem-dependent; it is abstracted as a
`resolvePath` argument returning `none` when resolution raises (the
`except: return` path persists nothing). On success: remove the first
occurrence of the resolved path if present, insert it at the front, truncate
to `max_recent` entries, and persist. -/

/-- The new value of `config['recent_output_dirs']` written by
`ConfigManager.add_recent_output_dir`, or `none` when nothing is persisted. -/
def addRecentOutputDir (resolvePath : String → Option String)
    (recent_dirs : List String) (output_path : String) (max_recent : ℕ) :
    Option (List String) :=
  match resolvePath output_path with
  | Option.none => Option.none
  | some abs_path =>
      let recent_dirs :=
        if abs_path ∈ recent_dirs then recent_dirs.erase abs_path else recent_dirs
      some ((abs_path :: recent_dirs).take max_recent)

/-! ## `ytdorn.py` — CLI option resolution in `run_cli_mode` (lines 1343–1459)

`run_cli_mode` builds `cli_options` from the parsed arguments and the loaded
config (lines 1369–1423), then, when `--preset` names a known preset, merges:
`merged_opts = preset_settings.copy()` followed by a partial enumeration of
argument-driven overwrites (lines 1435–1455). -/

/-- The `argparse` namespace restricted to the fields `run_cli_mode` reads
when building options (defaults as declared in `setup_argument_parser`). -/
structure Args where
  output : Option String
  output_template : Option String
  format : Option String
  extract_audio : Bool
  audio_format : String
  audio_quality : String
  subtitles : Bool
  sub_langs : String
  embed_subs : Bool
  thumbnail : Bool
  description_file : Bool
  metadata_json : Bool
  playlist_items : Option String
  no_playlist : Bool
  preset : Option String
deriving DecidableEq, Repr

/-- An invocation with no optional arguments: every field at its `argparse`
default (`None`, `False`, `'mp3'`, `'192K'`, `'en,en-US'`). -/
def defaultArgs : Args :=
  { output := Option.none, output_template := Option.none, format := Option.none
    extract_audio := false, audio_format := "mp3", audio_quality := "192K"
    subtitles := false, sub_langs := "en,en-US", embed_subs := false
    thumbnail := false, description_file := false, metadata_json := false
    playlist_items := Option.none, no_playlist := false, preset := Option.none }

/-- The parts of the loaded configuration `run_cli_mode` consults.
`default_format_cli` is absent from `_get_default_config`, hence `Option`. -/
structure CliConfig where
  default_output_dir : String
  default_format_cli : Option String
  presets : List (String × PyDict)
deriving DecidableEq, Repr

/-- `cli_options` as built by lines 1369–1423 of `run_cli_mode`. -/
def buildCliOptions (args : Args) (config : CliConfig) : PyDict :=
  -- line 1372: output directory
  let o := dictSet [] "output_dir" (Value.s (args.output.getD config.default_output_dir))
  -- line 1376: chosen_format_key_cli
  let key0 := args.format.getD (config.default_format_cli.getD "best")
  -- lines 1378-1382: --extract-audio overrides the key and sets audio options
  let keyAnd : String × PyDict :=
    if args.extract_audio then
      ("audio",
       dictSet (dictSet (dictSet o "extract_audio" (Value.b true))
         "audio_format" (Value.s args.audio_format))
         "audio_quality" (Value.s args.audio_quality))
    else (key0, o)
  let key := keyAnd.1
  let o := keyAnd.2
  -- lines 1384-1407: map the key to a format string (or pass it through)
  let o :=
    if key = "best" then
      dictSet o "format" (Value.s "bestvideo[ext=mp4]+bestaudio[ext=m4a]/best[ext=mp4]/best")
    else if key = "1080p" then
      dictSet o "format" (Value.s "bestvideo[height<=1080][ext=mp4]+bestaudio[ext=m4a]/best[height<=1080][ext=mp4]/best[height<=1080]")
    else if key = "720p" then
      dictSet o "format" (Value.s "bestvideo[height<=720][ext=mp4]+bestaudio[ext=m4a]/best[height<=720][ext=mp4]/best[height<=720]")
    else if key = "480p" then
      dictSet o "format" (Value.s "bestvideo[height<=480][ext=mp4]+bestaudio[ext=m4a]/best[height<=480][ext=mp4]/best[height<=480]")
    else if key = "audio" then
      dictSet (dictSet (dictSet (dictSet o "format" (Value.s "bestaudio/best"))
        "extract_audio" (Value.b true)) "audio_format" (Value.s args.audio_format))
        "audio_quality" (Value.s args.audio_quality)
    else if key = "mp3" then
      dictSet (dictSet (dictSet (dictSet o "format" (Value.s "bestaudio/best"))
        "extract_audio" (Value.b true)) "audio_format" (Value.s "mp3"))
        "audio_quality" (Value.s args.audio_quality)
    else
      let oX := dictSet o "format" (Value.s key)
      if args.extract_audio then
        dictSet (dictSet (dictSet oX "extract_audio" (Value.b true))
          "audio_format" (Value.s args.audio_format))
          "audio_quality" (Value.s args.audio_quality)
      else oX
  -- lines 1411-1415: subtitles
  let o := dictSet o "subtitles" (Value.b args.subtitles)
  let o :=
    if args.subtitles then
      dictSet (dictSet (dictSet o "sub_langs"
        (Value.sl (if args.sub_langs ≠ "" then args.sub_langs.splitOn "," else ["en"])))
        "embed_subs" (Value.b args.embed_subs)) "auto_subtitles" (Value.b true)
    else o
  -- lines 1417-1423: extras and playlist handling
  let o := dictSet o "thumbnail" (Value.b args.thumbnail)
  let o := dictSet o "description_file" (Value.b args.description_file)
  let o := dictSet o "metadata_json" (Value.b args.metadata_json)
  let o := dictSet o "playlist_items"
    (match args.playlist_items with
     | some v => Value.s v
     | Option.none => Value.none)
  dictSet o "no_playlist" (Value.b args.no_playlist)

/-- The preset merge of lines 1435–1455: start from a copy of the preset and
overwrite only the enumerated keys (output dir when `--output` was given;
the format family when `--format`/`--extract-audio` was given; the subtitle
family when `--subtitles` was given; `thumbnail` when `--thumbnail` was
given). The source comment "... and so on for other overridable options"
is not followed by code for any further key. -/
def applyPreset (args : Args) (cli_options : PyDict) (preset_settings : PyDict) : PyDict :=
  let m := preset_settings
  let m :=
    match args.output with
    | some outv => dictSet m "output_dir" (Value.s outv)
    | Option.none => m
  let m :=
    if args.format.isSome ∨ args.extract_audio then
      dictUpdateKeys m cli_options ["format", "extract_audio", "audio_format", "audio_quality"]
    else m
  let m :=
    if args.subtitles then
      dictSet (dictSet (dictSet m "subtitles" (Value.b true))
        "sub_langs" ((dictGet cli_options "sub_langs").getD Value.none))
        "embed_subs" ((dictGet cli_options "embed_subs").getD Value.none)
    else m
  if args.thumbnail then dictSet m "thumbnail" (Value.b true) else m

/-- The effective options `run_cli_mode` hands to the downloader: the built
`cli_options`, replaced by the preset merge when `--preset` names a known
preset; an unknown preset name exits with an error (line 1458). -/
def runCliResolvedOptions (args : Args) (config : CliConfig) : Except String PyDict :=
  let cli_options := buildCliOptions args config
  match args.preset with
  | Option.none => Except.ok cli_options
  | some p =>
      match config.presets.lookup p with
      | some preset_settings => Except.ok (applyPreset args cli_options preset_settings)
      | Option.none => Except.error "PresetNotFound"

/-- The `presets` entry of `ConfigManager._get_default_config`
(lines 1228–1246), with `Path.home()` abstracted as `home`. -/
def defaultPresets (home : String) : List (String × PyDict) :=
  [ ("high_quality_mp4",
      [ ("format", Value.s "bestvideo[ext=mp4]+bestaudio[ext=m4a]/best[ext=mp4]/best")
      , ("subtitles", Value.b true), ("embed_subs", Value.b true)
      , ("sub_langs", Value.sl ["en", "en-US"])
      , ("thumbnail", Value.b true), ("description_file", Value.b true)
      , ("metadata_json", Value.b true)
      , ("output_dir", Value.s (home ++ "/Videos/YtDorn_HQ")) ])
  , ("audio_mp3_collection",
      [ ("format", Value.s "bestaudio/best"), ("extract_audio", Value.b true)
      , ("audio_format", Value.s "mp3"), ("audio_quality", Value.s "192K")
      , ("thumbnail", Value.b true)
      , ("output_dir", Value.s (home ++ "/Music/YtDorn_MP3s")) ])
  , ("archive_data_saver",
      [ ("format", Value.s "bestvideo[height<=480][ext=mp4]+bestaudio[ext=m4a]/best[height<=480][ext=mp4]/best[height<=480]")
      , ("subtitles", Value.b true), ("sub_langs", Value.sl ["en"])
      , ("output_dir", Value.s (home ++ "/Videos/YtDorn_Archive_SD")) ]) ]

/-- The default configuration as consulted by `run_cli_mode`
(`default_output_dir` from line 1222; no `default_format_cli` key). -/
def defaultCliConfig (home : String) : CliConfig :=
  { default_output_dir := home ++ "/Downloads/YtDorn"
    default_format_cli := Option.none
    presets := defaultPresets home }

/-! ## Theorems -/

/-- C1: the claim says invoking cancel sets an interruption flag that the
progress callback observes, aborting the current transfer. In the code,
`YtDornGUI.cancel_download` only writes a log line and resets the three UI
fields — the class has no flag attribute — and `download_progress_hook` and
`download_thread` read none of the fields it writes: after a cancel, a
full in-flight transfer (two progress callbacks, then success) still runs to
completion, still reports progress percentages and still enqueues `done`. -/
theorem cancel_download_aborts_nothing :
    cancelDownload guiInit =
      { guiInit with log_lines := [("Download cancelled", "warning")] }
    ∧ downloadThread
        [ { status := "downloading", filename := some "a.mp4", total_bytes := some 100
            downloaded_bytes := some 50, speed := Option.none }
        , { status := "downloading", filename := some "a.mp4", total_bytes := some 100
            downloaded_bytes := some 80, speed := Option.none } ]
        (Except.ok ()) (cancelDownload guiInit) =
      { guiInit with
          log_lines := [("Download cancelled", "warning")]
          output_queue := [GuiMsg.progress 50, GuiMsg.progress 80, GuiMsg.done] } := by
  refine ⟨rfl, ?_⟩
  norm_num [downloadThread, downloadProgressHook, cancelDownload, guiInit,
    basename, splitSlash, splitSlashAux]

/-- C2: the claim says the download progress hook never raises, in
particular on duplicate invocations for the same file. In
`ytdorn3.py`'s `Downloader.download_hook` the local `total_bytes` is bound
only when the filename is new (line 369) yet read unconditionally
(line 370), so the second `'downloading'` callback for the same file — the
normal case for any multi-callback download — raises `UnboundLocalError`.
The first callback succeeds; chaining the second fails. -/
theorem download_hook_raises_on_second_callback :
    ytdorn3DownloadHook dlInit 1
        { status := "downloading", filename := some "video.mp4", total_bytes := some 100
          downloaded_bytes := some 10, speed := Option.none } =
      Except.ok { progress_bars := [("video.mp4", { total := 100, start_time := 1, current := 10 })]
                  start_times := [("video.mp4", 1)] }
    ∧ ((ytdorn3DownloadHook dlInit 1
          { status := "downloading", filename := some "video.mp4", total_bytes := some 100
            downloaded_bytes := some 10, speed := Option.none }).bind fun s1 =>
        ytdorn3DownloadHook s1 2
          { status := "downloading", filename := some "video.mp4", total_bytes := some 100
            downloaded_bytes := some 20, speed := Option.none }) =
      Except.error "UnboundLocalError: total_bytes" := by
  constructor <;> rfl

/-- C3 counterexample: the claim requires, for the 720p tier, a fallback
chain whose first alternative is a single container (no `+`-mux) at or below
the tier height and whose last alternative is the unconstrained `best`.
In `create_advanced_options_menu` the first alternative is the separately
muxed `bestvideo+bestaudio` pair and the last is the height-constrained
`best[height<=720]`. -/
theorem format_fallback_720p_counterexample :
    (formatAlternatives (advancedMenuFormat "720p" "")).head? =
      some "bestvideo[height<=720][ext=mp4]+bestaudio[ext=m4a]"
    ∧ isMuxedQuery "bestvideo[height<=720][ext=mp4]+bestaudio[ext=m4a]" = true
    ∧ (formatAlternatives (advancedMenuFormat "720p" "")).getLast? =
      some "best[height<=720]"
    ∧ "best[height<=720]" ≠ "best" := by
  refine ⟨rfl, rfl, rfl, ?_⟩
  decide

/-- C3 amended: for every video tier the fallback chain has exactly three
alternatives, in this order: (1) separately muxed
best-video-at-or-below-height plus best-audio, (2) a single mp4 container at
or below the height, (3) a final fallback that is the height-constrained
best for the numbered tiers of `create_advanced_options_menu` and the
unconstrained best for its `best` tier and for all of `ytdorn3.py`'s
`_get_format_options` video choices. -/
theorem format_fallback_chains_exact :
    formatAlternatives (advancedMenuFormat "best" "") =
      ["bestvideo[ext=mp4]+bestaudio[ext=m4a]", "best[ext=mp4]", "best"]
    ∧ formatAlternatives (advancedMenuFormat "1080p" "") =
      ["bestvideo[height<=1080][ext=mp4]+bestaudio[ext=m4a]",
       "best[height<=1080][ext=mp4]", "best[height<=1080]"]
    ∧ formatAlternatives (advancedMenuFormat "720p" "") =
      ["bestvideo[height<=720][ext=mp4]+bestaudio[ext=m4a]",
       "best[height<=720][ext=mp4]", "best[height<=720]"]
    ∧ formatAlternatives (advancedMenuFormat "480p" "") =
      ["bestvideo[height<=480][ext=mp4]+bestaudio[ext=m4a]",
       "best[height<=480][ext=mp4]", "best[height<=480]"]
    ∧ formatAlternatives (ytdorn3GetFormatOptions "1").format =
      ["bestvideo[ext=mp4]+bestaudio[ext=m4a]", "best[ext=mp4]", "best"]
    ∧ formatAlternatives (ytdorn3GetFormatOptions "2").format =
      ["bestvideo[height<=720][ext=mp4]+bestaudio[ext=m4a]",
       "best[height<=720][ext=mp4]", "best"]
    ∧ formatAlternatives (ytdorn3GetFormatOptions "3").format =
      ["bestvideo[height<=480][ext=mp4]+bestaudio[ext=m4a]",
       "best[height<=480][ext=mp4]", "best"] := by
  refine ⟨rfl, rfl, rfl, rfl, rfl, rfl, rfl⟩

/-- C5: the claim says any key present in both the explicit invocation
arguments and the selected preset resolves to the argument's value. With
`--preset audio_mp3_collection --audio-quality 320K` (and no
`--format`/`--extract-audio`), the merge of `run_cli_mode` lines 1442–1455
never copies `audio_quality` out of the invocation, so the resolved value is
the preset's `192K`, not the explicitly passed `320K`. -/
theorem audio_quality_override_lost_to_preset :
    ({ defaultArgs with preset := some "audio_mp3_collection"
                        audio_quality := "320K" } : Args).audio_quality = "320K"
    ∧ (runCliResolvedOptions
        { defaultArgs with preset := some "audio_mp3_collection", audio_quality := "320K" }
        (defaultCliConfig "/home/user")).map (fun opts => dictGet opts "audio_quality") =
      Except.ok (some (Value.s "192K")) := by
  constructor <;> rfl

/-- C10: for any choice outside `'1'..'5'`, `ytdorn3.py`'s
`_get_format_options` totally falls back to `formats.get(choice,
formats['1'])` — the Best Quality Video options — while the GUI's
`get_format_options` falls into its final `else`, the medium-quality audio
options; recognized choices map to the fixed literal dicts. -/
theorem unrecognized_choice_format_options (c : String)
    (h : c ∉ (["1", "2", "3", "4", "5"] : List String)) :
    ytdorn3GetFormatOptions c = ytdorn3Fmt1
    ∧ ytdorn3GetFormatOptions c = ytdorn3GetFormatOptions "1"
    ∧ guiGetFormatOptions c = guiMediumAudioOpts := by
  simp only [List.mem_cons, List.not_mem_nil, or_false, not_or] at h
  obtain ⟨h1, h2, h3, h4, h5⟩ := h
  have b1 : (c == "1") = false := beq_eq_false_iff_ne.mpr h1
  have b2 : (c == "2") = false := beq_eq_false_iff_ne.mpr h2
  have b3 : (c == "3") = false := beq_eq_false_iff_ne.mpr h3
  have b4 : (c == "4") = false := beq_eq_false_iff_ne.mpr h4
  have b5 : (c == "5") = false := beq_eq_false_iff_ne.mpr h5
  refine ⟨?_, ?_, ?_⟩
  · simp [ytdorn3GetFormatOptions, ytdorn3Formats, List.lookup, b1, b2, b3, b4, b5]
  · simp [ytdorn3GetFormatOptions, ytdorn3Formats, List.lookup, b1, b2, b3, b4, b5]
  · simp [guiGetFormatOptions, h1, h2, h3, h4]

/-- Witness for C10 at the concrete unrecognized choice `"x"`. -/
theorem unrecognized_choice_format_options_witness :
    ("x" : String) ∉ (["1", "2", "3", "4", "5"] : List String)
    ∧ (ytdorn3GetFormatOptions "x" = ytdorn3Fmt1
       ∧ ytdorn3GetFormatOptions "x" = ytdorn3GetFormatOptions "1"
       ∧ guiGetFormatOptions "x" = guiMediumAudioOpts) :=
  ⟨by decide, unrecognized_choice_format_options "x" (by decide)⟩

/-- C4 counterexample: the claim says that with `totalBytes` zero no numeric
percent is produced. `AdvancedProgressBar.update` (line 168) computes the
numeric percentage unconditionally, substituting the synthetic value `0`
when the total is not positive, and renders it in the `{percentage:5.1f}%`
field of the returned line: at `total = 0`, `bytes = 50` the update output
carries the numeric percentage `0`. -/
theorem adv_update_zero_total_synthetic_percent :
    (advBarUpdate (advBarInit 0 0) 5 50).2.percentage = 0 := by
  norm_num [advBarUpdate, advBarInit, advSpeedStep]

/-- C4 amended: `percent = 100 * bytes / total` whenever the total is
positive, in both `AdvancedProgressBar.update` and the GUI's
`download_progress_hook` (which enqueues the percent message exactly when
`total_bytes > 0` and otherwise emits no progress message); but when the
total is zero or absent `AdvancedProgressBar.update` reports the synthetic
numeric percentage `0` instead of leaving the percent undefined. -/
theorem percent_defined_iff_total_positive (s : AdvBar) (now b : ℚ)
    (g : GuiState) (d : HookInput) (hd : d.status = "downloading") :
    ((0 : ℚ) < s.total → (advBarUpdate s now b).2.percentage = 100 * b / s.total)
    ∧ (s.total ≤ 0 → (advBarUpdate s now b).2.percentage = 0)
    ∧ (downloadProgressHook g d).output_queue =
        g.output_queue
        ++ (if (0 : ℚ) < d.total_bytes.getD 0 then
              [GuiMsg.progress (100 * d.downloaded_bytes.getD 0 / d.total_bytes.getD 0)]
            else [])
        ++ (if d.speed.getD 0 ≠ 0 then
              [GuiMsg.statusMsg ("Downloading " ++ basename (d.filename.getD "") ++
                "... @ " ++ formatSize (d.speed.getD 0) ++ "/s")]
            else []) := by
  have harith : ∀ x y : ℚ, x / y * 100 = 100 * x / y := fun x y => by ring
  refine ⟨?_, ?_, ?_⟩
  · intro ht
    simp [advBarUpdate, ht, harith]
  · intro ht
    simp [advBarUpdate, not_lt.mpr ht]
  · simp only [downloadProgressHook, hd, if_true, reduceIte]
    split_ifs with hTot hSp hSp <;>
      simp [List.append_assoc, harith]

/-- Witness for C4 at total 200, bytes 50 and a concrete downloading
callback. -/
theorem percent_defined_iff_total_positive_witness :
    (0 : ℚ) < (200 : ℚ)
    ∧ (advBarUpdate { total := 200, start_time := 0, current := 0
                      speed_samples := [], last_update_time := 0 } 5 50).2.percentage =
        100 * 50 / 200 :=
  ⟨by norm_num,
   (percent_defined_iff_total_positive
      { total := 200, start_time := 0, current := 0
        speed_samples := [], last_update_time := 0 } 5 50 guiInit
      { status := "downloading", filename := Option.none, total_bytes := Option.none
        downloaded_bytes := Option.none, speed := Option.none } rfl).1 (by norm_num)⟩

/-- The batch loop is exactly a map of the per-URL outcome. -/
theorem batchOutcomes_eq_map (engine : String → PyDict → Except String Unit)
    (base_options : PyDict) (urls : List String) :
    batchOutcomes engine base_options urls =
      urls.map fun url => downloadWithOptions engine url base_options := by
  induction urls with
  | nil => rfl
  | cons u t ih => simp [batchOutcomes, ih]

/-- C8: in `BatchDownloader.download_from_file`, every one of the N URLs
receives its own terminal outcome — the i-th outcome is exactly
`download_with_options` applied to the i-th URL, for every engine behaviour
including failing ones — because `download_with_options` converts engine
exceptions into `False` (lines 760–763) and the loop body (lines 1151–1160)
neither breaks nor returns early. -/
theorem batch_failure_isolation (engine : String → PyDict → Except String Unit)
    (base_options : PyDict) (valid_urls : List String) :
    (batchOutcomes engine base_options valid_urls).length = valid_urls.length
    ∧ ∀ i : ℕ, (batchOutcomes engine base_options valid_urls)[i]? =
        (valid_urls[i]?).map fun url => downloadWithOptions engine url base_options := by
  rw [batchOutcomes_eq_map]
  exact ⟨List.length_map _ _, fun i => List.getElem?_map _ _ i⟩

/-- C9: each persistence performed by `ConfigManager.add_recent_output_dir`
stores a recent list of at most 5 entries, duplicate-free, with the just
resolved absolute path first (given the previously stored list was
duplicate-free, as every list this function writes is). -/
theorem recent_dirs_invariant (resolvePath : String → Option String)
    (recent_dirs : List String) (output_path abs_path : String)
    (hres : resolvePath output_path = some abs_path)
    (hnd : recent_dirs.Nodup) :
    ∃ l, addRecentOutputDir resolvePath recent_dirs output_path 5 = some l
      ∧ l.length ≤ 5 ∧ l.Nodup ∧ l.head? = some abs_path := by
  unfold addRecentOutputDir
  rw [hres]
  refine ⟨_, rfl, List.length_take_le 5 _, ?_, ?_⟩
  · refine List.Nodup.sublist (List.take_sublist 5 _) ?_
    by_cases hmem : abs_path ∈ recent_dirs
    · rw [if_pos hmem]
      exact List.nodup_cons.mpr ⟨hnd.not_mem_erase, hnd.erase abs_path⟩
    · rw [if_neg hmem]
      exact List.nodup_cons.mpr ⟨hmem, hnd⟩
  · rfl

/-- Witness for C9: remembering `/a` again on top of `["/a", "/b"]`. -/
theorem recent_dirs_invariant_witness :
    (fun p : String => some p) "/a" = some "/a"
    ∧ (["/a", "/b"] : List String).Nodup
    ∧ ∃ l, addRecentOutputDir (fun p : String => some p) ["/a", "/b"] "/a" 5 = some l
        ∧ l.length ≤ 5 ∧ l.Nodup ∧ l.head? = some "/a" :=
  ⟨rfl, by decide,
   recent_dirs_invariant (fun p => some p) ["/a", "/b"] "/a" "/a" rfl (by decide)⟩

/-- In a strictly increasing window, every element's timestamp is at most
the newest sample's. -/
theorem fst_le_of_pairwise_getLast (l : List (ℚ × ℚ)) (p : ℚ × ℚ)
    (h : l.Pairwise (fun a c => a.1 < c.1)) (hl : l.getLast? = some p) :
    ∀ x ∈ l, x.1 ≤ p.1 := by
  induction l with
  | nil => simp
  | cons a t ih =>
    intro x hx
    cases t with
    | nil =>
      simp only [List.getLast?_singleton, Option.some.injEq] at hl
      simp only [List.mem_singleton] at hx
      subst hl; subst hx; exact le_rfl
    | cons c t2 =>
      rw [List.getLast?_cons_cons] at hl
      have hpmem : p ∈ c :: t2 := by
        obtain ⟨hne, heq⟩ :=
          List.mem_getLast?_eq_getLast (l := c :: t2) (x := p) (by simp [hl])
        rw [heq]; exact List.getLast_mem hne
      rcases List.mem_cons.mp hx with rfl | hxt
      · exact le_of_lt ((List.pairwise_cons.mp h).1 p hpmem)
      · exact ih (List.pairwise_cons.mp h).2 hl x hxt

/-- Appending a sample strictly newer than everything in the window keeps
the window strictly increasing. -/
theorem pairwise_append_newest (l : List (ℚ × ℚ)) (q : ℚ × ℚ)
    (h : l.Pairwise (fun a c => a.1 < c.1)) (hq : ∀ x ∈ l, x.1 < q.1) :
    (l ++ [q]).Pairwise (fun a c => a.1 < c.1) := by
  refine List.pairwise_append.mpr ⟨h, List.pairwise_singleton _ _, ?_⟩
  intro x hx y hy
  simp only [List.mem_singleton] at hy
  subst hy
  exact hq x hx

/-- A strictly increasing window with at least two samples has its oldest
timestamp strictly below its newest. -/
theorem head_lt_getLast_of_two (l : List (ℚ × ℚ))
    (h : l.Pairwise (fun a c => a.1 < c.1)) (h2 : 2 ≤ l.length) :
    ∃ hp lp, l.head? = some hp ∧ l.getLast? = some lp ∧ hp.1 < lp.1 := by
  match l with
  | [] => simp at h2
  | [a] => simp at h2
  | a :: c :: t2 =>
    obtain ⟨lp, hlp⟩ : ∃ lp, (c :: t2).getLast? = some lp := ⟨_, List.getLast?_cons⟩
    have hpmem : lp ∈ c :: t2 := by
      obtain ⟨hne, heq⟩ :=
        List.mem_getLast?_eq_getLast (l := c :: t2) (x := lp) (by simp [hlp])
      rw [heq]; exact List.getLast_mem hne
    exact ⟨a, lp, rfl, by rw [List.getLast?_cons_cons]; exact hlp,
      (List.pairwise_cons.mp h).1 lp hpmem⟩

/-- `appendSample` preserves strictly increasing timestamps. -/
theorem appendSample_pairwise (l : List (ℚ × ℚ)) (now b : ℚ)
    (h : l.Pairwise fun a c => a.1 < c.1) :
    (appendSample l now b).Pairwise fun a c => a.1 < c.1 := by
  unfold appendSample
  split_ifs with hc
  · by_cases he : l = []
    · subst he; simp
    · obtain ⟨p, hp⟩ : ∃ p, l.getLast? = some p := by
        cases l with
        | nil => exact absurd rfl he
        | cons a t => exact ⟨_, List.getLast?_cons⟩
      have hgt : now > p.1 := by
        rcases hc with he' | hgt'
        · exact absurd he' he
        · rwa [List.getLastD_eq_getLast?, hp, Option.getD_some] at hgt'
      exact pairwise_append_newest l (now, b) h fun x hx =>
        lt_of_le_of_lt (fst_le_of_pairwise_getLast l p h hp x hx) hgt
  · exact h

/-- `appendSample` grows the window by at most one sample. -/
theorem appendSample_length (l : List (ℚ × ℚ)) (now b : ℚ) :
    (appendSample l now b).length ≤ l.length + 1 := by
  unfold appendSample
  split_ifs <;> simp

/-- A sample whose timestamp does not strictly exceed the newest sample's is
not appended. -/
theorem appendSample_stale (l : List (ℚ × ℚ)) (now b : ℚ) (p : ℚ × ℚ)
    (hl : l.getLast? = some p) (hle : now ≤ p.1) :
    appendSample l now b = l := by
  have hne : l ≠ [] := by intro e; rw [e] at hl; simp at hl
  unfold appendSample
  rw [if_neg]
  rintro (he | hgt)
  · exact hne he
  · rw [List.getLastD_eq_getLast?, hl, Option.getD_some] at hgt
    exact absurd hgt (not_lt.mpr hle)

/-- Evicting the oldest sample preserves strictly increasing timestamps. -/
theorem evictOld_pairwise (l : List (ℚ × ℚ))
    (h : l.Pairwise fun a c => a.1 < c.1) :
    (evictOld l).Pairwise fun a c => a.1 < c.1 := by
  unfold evictOld
  split_ifs
  · exact h.tail
  · exact h

/-- After eviction a window of at most 11 samples has at most 10. -/
theorem evictOld_length (l : List (ℚ × ℚ)) (hl : l.length ≤ 11) :
    (evictOld l).length ≤ 10 := by
  unfold evictOld
  split_ifs with hgt
  · simp only [List.length_tail]; omega
  · omega

/-- A window within bounds is not evicted from. -/
theorem evictOld_of_le (l : List (ℚ × ℚ)) (hl : l.length ≤ 10) :
    evictOld l = l := by
  unfold evictOld
  rw [if_neg (by omega)]

/-- On a strictly increasing window of at least two samples, the source's
guarded computation equals the windowed rate. -/
theorem windowSpeed_eq_windowRate (l : List (ℚ × ℚ))
    (h : l.Pairwise fun a c => a.1 < c.1) (h2 : 2 ≤ l.length) :
    windowSpeed l = windowRate l := by
  obtain ⟨hp, lp, hh, hl, hlt⟩ := head_lt_getLast_of_two l h h2
  unfold windowSpeed windowRate
  rw [hl, hh, if_pos (by omega)]
  simp only
  rw [if_pos (by linarith)]

/-- With fewer than two samples no windowed rate is produced. -/
theorem windowSpeed_short (l : List (ℚ × ℚ)) (h2 : l.length < 2) :
    windowSpeed l = Option.none := by
  unfold windowSpeed
  rw [if_neg (by omega)]

/-- `advBarUpdate` forwards the sample window computed by `advSpeedStep`. -/
theorem advBarUpdate_samples (s : AdvBar) (now b : ℚ) :
    (advBarUpdate s now b).1.speed_samples =
      (advSpeedStep { s with current := b } now b).1 := rfl

/-- `advBarUpdate` forwards the speed computed by `advSpeedStep`. -/
theorem advBarUpdate_speed_eq (s : AdvBar) (now b : ℚ) :
    (advBarUpdate s now b).2.speed =
      (advSpeedStep { s with current := b } now b).2.1 := rfl

/-- One update preserves the window invariant. -/
theorem advSpeedStep_window_inv (s : AdvBar) (now b : ℚ)
    (h : WindowInv s.speed_samples) : WindowInv (advSpeedStep s now b).1 := by
  obtain ⟨hp, hl⟩ := h
  unfold advSpeedStep
  by_cases c1 : now - s.last_update_time > 1/2 ∨ s.speed_samples = []
  · rw [if_pos c1]
    by_cases c2 : s.speed_samples = []
    · rw [if_neg (not_not_intro c2)]
      by_cases c3 : now > s.start_time
      · rw [if_pos c3, c2]
        exact ⟨by simp, by simp⟩
      · rw [if_neg c3]
        exact ⟨hp, hl⟩
    · rw [if_pos c2]
      exact ⟨evictOld_pairwise _ (appendSample_pairwise _ _ _ hp),
        evictOld_length _ (le_trans (appendSample_length _ _ _) (by omega))⟩
  · rw [if_neg c1]
    exact ⟨hp, hl⟩

/-- A stale timestamp leaves the whole window untouched. -/
theorem advSpeedStep_stale (s : AdvBar) (now b : ℚ) (p : ℚ × ℚ)
    (hl : s.speed_samples.getLast? = some p) (hle : now ≤ p.1)
    (hlen : s.speed_samples.length ≤ 10) :
    (advSpeedStep s now b).1 = s.speed_samples := by
  have hne : s.speed_samples ≠ [] := by intro e; rw [e] at hl; simp at hl
  unfold advSpeedStep
  by_cases c1 : now - s.last_update_time > 1/2 ∨ s.speed_samples = []
  · rw [if_pos c1, if_pos hne]
    simp only
    rw [appendSample_stale _ _ _ p hl hle, evictOld_of_le _ hlen]
  · rw [if_neg c1]

/-- C6: a sample whose timestamp does not strictly exceed the newest
sample's is not appended (the window is returned unchanged), the window's
timestamps stay strictly increasing and the window never exceeds 10
samples — both for one `AdvancedProgressBar.update` step from any state
satisfying the invariant, and along any sequence of updates from a freshly
constructed bar. -/
theorem sample_window_invariants (s : AdvBar) (now b total t0 : ℚ)
    (upds : List (ℚ × ℚ)) (h : WindowInv s.speed_samples) :
    WindowInv ((advBarUpdate s now b).1.speed_samples)
    ∧ (∀ p, s.speed_samples.getLast? = some p → now ≤ p.1 →
        (advBarUpdate s now b).1.speed_samples = s.speed_samples)
    ∧ WindowInv ((upds.foldl (fun st u => (advBarUpdate st u.1 u.2).1)
        (advBarInit total t0)).speed_samples) := by
  refine ⟨?_, ?_, ?_⟩
  · rw [advBarUpdate_samples]
    exact advSpeedStep_window_inv _ now b h
  · intro p hp hle
    rw [advBarUpdate_samples]
    exact advSpeedStep_stale _ now b p hp hle h.2
  · have main : ∀ (l : List (ℚ × ℚ)) (st : AdvBar), WindowInv st.speed_samples →
        WindowInv ((l.foldl (fun st u => (advBarUpdate st u.1 u.2).1) st).speed_samples) := by
      intro l
      induction l with
      | nil => intro st hst; exact hst
      | cons u t ih =>
          intro st hst
          refine ih _ ?_
          rw [advBarUpdate_samples]
          exact advSpeedStep_window_inv _ u.1 u.2 hst
    exact main upds _ ⟨List.Pairwise.nil, by simp [advBarInit]⟩

/-- Witness for C6: a duplicate-timestamp callback against a one-sample
window is ignored and the invariant holds afterwards. -/
theorem sample_window_invariants_witness :
    WindowInv ((advBarUpdate
        { total := 100, start_time := 0, current := 0,
          speed_samples := [(5, 50)], last_update_time := 0 } 5 60).1.speed_samples)
    ∧ (advBarUpdate
        { total := 100, start_time := 0, current := 0,
          speed_samples := [(5, 50)], last_update_time := 0 } 5 60).1.speed_samples =
      [(5, 50)] := by
  have h := sample_window_invariants
    { total := 100, start_time := 0, current := 0,
      speed_samples := [(5, 50)], last_update_time := 0 } 5 60 100 0 []
    ⟨List.pairwise_singleton _ _, by simp⟩
  exact ⟨h.1, h.2.1 (5, 50) rfl le_rfl⟩

/-- Characterization of the speed output of one sampling step. -/
theorem advSpeedStep_speed_char (s : AdvBar) (now b : ℚ)
    (h : WindowInv s.speed_samples) :
    (¬ (now - s.last_update_time > 1/2 ∨ s.speed_samples = []) →
        (advSpeedStep s now b).2.1 = Option.none)
    ∧ (s.speed_samples = [] → now > s.start_time →
        (advSpeedStep s now b).2.1 = some (b / (now - s.start_time)))
    ∧ (s.speed_samples = [] → ¬ now > s.start_time →
        (advSpeedStep s now b).2.1 = Option.none)
    ∧ (s.speed_samples ≠ [] → now - s.last_update_time > 1/2 →
        2 ≤ (advSpeedStep s now b).1.length →
        (advSpeedStep s now b).2.1 = windowRate (advSpeedStep s now b).1)
    ∧ (s.speed_samples ≠ [] → now - s.last_update_time > 1/2 →
        (advSpeedStep s now b).1.length < 2 →
        (advSpeedStep s now b).2.1 = Option.none) := by
  refine ⟨?_, ?_, ?_, ?_, ?_⟩
  · intro hc
    unfold advSpeedStep
    rw [if_neg hc]
  · intro he hgt
    unfold advSpeedStep
    rw [if_pos (Or.inr he), if_neg (not_not_intro he), if_pos hgt]
  · intro he hngt
    unfold advSpeedStep
    rw [if_pos (Or.inr he), if_neg (not_not_intro he), if_neg hngt]
  · intro hne hthr h2
    have hinv := advSpeedStep_window_inv s now b h
    unfold advSpeedStep at hinv h2 ⊢
    rw [if_pos (Or.inl hthr), if_pos hne] at hinv h2 ⊢
    simp only at hinv h2 ⊢
    exact windowSpeed_eq_windowRate _ hinv.1 h2
  · intro hne hthr h2
    unfold advSpeedStep at h2 ⊢
    rw [if_pos (Or.inl hthr), if_pos hne] at h2 ⊢
    simp only at h2 ⊢
    exact windowSpeed_short _ h2

/-- C7 counterexample: a duplicate callback (same timestamp 10) arriving
while the window holds a single sample. The claim requires the overall
average `60 / (10 − 0)` to be reported while the window has fewer than two
samples; the code reports no throughput at all (the throttle is closed and
no recomputation happens). Both states are reached from a freshly
constructed bar. -/
theorem throughput_fallback_counterexample :
    (advBarUpdate ((advBarUpdate (advBarInit 100 0) 10 50).1) 10 60).1.speed_samples.length = 1
    ∧ (advBarUpdate ((advBarUpdate (advBarInit 100 0) 10 50).1) 10 60).2.speed = Option.none
    ∧ (Option.none : Option ℚ) ≠ some (60 / (10 - 0)) := by
  refine ⟨?_, ?_, by simp⟩ <;>
    norm_num [advBarUpdate, advBarInit, advSpeedStep, appendSample, evictOld, windowSpeed]

/-- C7 amended: when a recomputation is due (more than 0.5 s since the last
one, or an empty window): starting from a nonempty window, if the window
holds at least two samples after the conditional append and eviction, the
reported throughput is exactly `(newest bytes − oldest bytes) /
(newest time − oldest time)` over the current window, and otherwise no
throughput is reported; from an empty window the overall average
`bytes / (now − start_time)` is reported when time has advanced, and
nothing otherwise; when no recomputation is due, no throughput is
reported. -/
theorem throughput_characterization (s : AdvBar) (now b : ℚ)
    (h : WindowInv s.speed_samples) :
    (¬ (now - s.last_update_time > 1/2 ∨ s.speed_samples = []) →
        (advBarUpdate s now b).2.speed = Option.none)
    ∧ (s.speed_samples = [] → now > s.start_time →
        (advBarUpdate s now b).2.speed = some (b / (now - s.start_time)))
    ∧ (s.speed_samples = [] → ¬ now > s.start_time →
        (advBarUpdate s now b).2.speed = Option.none)
    ∧ (s.speed_samples ≠ [] → now - s.last_update_time > 1/2 →
        2 ≤ (advBarUpdate s now b).1.speed_samples.length →
        (advBarUpdate s now b).2.speed =
          windowRate ((advBarUpdate s now b).1.speed_samples))
    ∧ (s.speed_samples ≠ [] → now - s.last_update_time > 1/2 →
        (advBarUpdate s now b).1.speed_samples.length < 2 →
        (advBarUpdate s now b).2.speed = Option.none) := by
  simp only [advBarUpdate_samples, advBarUpdate_speed_eq]
  exact advSpeedStep_speed_char { s with current := b } now b h

/-- Witness for C7: a strictly advancing second sample yields the windowed
rate over the two-sample window. -/
theorem throughput_characterization_witness :
    (advBarUpdate
        { total := 100, start_time := 0, current := 0,
          speed_samples := [(1, 10)], last_update_time := 0 } 2 30).2.speed =
      windowRate ((advBarUpdate
        { total := 100, start_time := 0, current := 0,
          speed_samples := [(1, 10)], last_update_time := 0 } 2 30).1.speed_samples) :=
  (throughput_characterization
    { total := 100, start_time := 0, current := 0,
      speed_samples := [(1, 10)], last_update_time := 0 } 2 30
    ⟨List.pairwise_singleton _ _, by simp⟩).2.2.2.1
    (by simp) (by norm_num)
    (by norm_num [advBarUpdate, advSpeedStep, appendSample, evictOld])

end YtDorn
